import Mathlib

/-!
# Verification of the WM8960 register-map constants (src/src/wm8960.h)

The repository is a C header defining the register address, bit masks,
shift amounts and documented reference values for the WM8960 codec's
Left (and Right) Input Volume registers.  Each `#define` is embedded
below as a `Nat` definition, written exactly as the source writes it
(shift expressions stay shift expressions, hex literals stay hex
literals).  The constants carry the `u` (unsigned int) suffix in C, so
where a bitwise complement is needed we work modulo `2^32`, the width
of `unsigned int` on the platforms this header targets.
-/

/-- `#define WM8960_R0_ADDR 0x00u` -/
def WM8960_R0_ADDR : Nat := 0x00

/-- `#define WM8960_R0_IPVU (1u << 8)` — Input PGA volume update. -/
def WM8960_R0_IPVU : Nat := 1 <<< 8

/-- `#define WM8960_R0_LINMUTE (1u << 7)` — Input PGA analogue mute. -/
def WM8960_R0_LINMUTE : Nat := 1 <<< 7

/-- `#define WM8960_R0_LIZC (1u << 6)` — Input PGA zero-cross enable. -/
def WM8960_R0_LIZC : Nat := 1 <<< 6

/-- `#define WM8960_R0_LINVOL_MASK 0x3Fu` — bits 5:0 volume code. -/
def WM8960_R0_LINVOL_MASK : Nat := 0x3F

/-- `#define WM8960_R0_LINVOL_SHIFT 0` -/
def WM8960_R0_LINVOL_SHIFT : Nat := 0

/-- `#define WM8960_R0_LINVOL_0DB 0x17u` -/
def WM8960_R0_LINVOL_0DB : Nat := 0x17

/-- `#define WM8960_R0_LINVOL_MAX_30DB 0x3Fu` -/
def WM8960_R0_LINVOL_MAX_30DB : Nat := 0x3F

/-- `#define WM8960_LEFT_RIGHT_IN_VOL_IPVU 0x100u` — Input PGA Volume Update. -/
def WM8960_LEFT_RIGHT_IN_VOL_IPVU : Nat := 0x100

/-- `#define WM8960_LEFT_RIGHT_IN_VOL_INMUTE 0x080u` — Input PGA Analogue Mute. -/
def WM8960_LEFT_RIGHT_IN_VOL_INMUTE : Nat := 0x080

/-- `#define WM8960_LEFT_RIGHT_IN_VOL_IZC_ZC 0x040u` — Input PGA Zero Cross Detector. -/
def WM8960_LEFT_RIGHT_IN_VOL_IZC_ZC : Nat := 0x040

/-- `#define WM8960_LEFT_RIGHT_IN_VOL_INVOL_0dB 0x017u` — Input PGA Volume 0dB. -/
def WM8960_LEFT_RIGHT_IN_VOL_INVOL_0dB : Nat := 0x017

/-- `#define WM8960_LEFT_RIGHT_IN_VOL_INVOL_30dB 0x03Fu` — Input PGA Volume 30dB. -/
def WM8960_LEFT_RIGHT_IN_VOL_INVOL_30dB : Nat := 0x03F

/-- The documented power-up default value of the Left Input Volume
register, from the header's doc comment: `Default 0x017`. -/
def WM8960_R0_DEFAULT : Nat := 0x017

/-- The masks of the four bit fields the header defines for the Left
Input Volume register.  The single-bit fields IPVU, LINMUTE and LIZC
are their own masks; LINVOL has an explicit mask constant. -/
def leftInVolFieldMasks : List Nat :=
  [WM8960_R0_IPVU, WM8960_R0_LINMUTE, WM8960_R0_LIZC, WM8960_R0_LINVOL_MASK]

/-- Bitwise complement of a mask within the 32-bit width of the C
`unsigned int` constants: `~mask` in C is `0xFFFFFFFF ^^^ mask`. -/
def complement32 (mask : Nat) : Nat := 0xFFFFFFFF ^^^ mask

/-- C1: every mask of the four Left Input Volume fields (IPVU, LINMUTE,
LIZC, LINVOL) is non-zero, and any two distinct masks have zero bitwise
AND: no two field masks overlap within the register. -/
theorem leftInVol_masks_nonzero_disjoint :
    (∀ m ∈ leftInVolFieldMasks, m ≠ 0) ∧
    leftInVolFieldMasks.Pairwise (fun a b => a &&& b = 0) := by
  decide

/-- C2: the 0 dB gain code is 0x17, the maximum gain code is 0x3F, and
in exact rational arithmetic the 0.75 dB steps between them span
exactly 30 dB. -/
theorem linvol_codes_span_30dB :
    WM8960_R0_LINVOL_0DB = 0x17 ∧
    WM8960_R0_LINVOL_MAX_30DB = 0x3F ∧
    ((WM8960_R0_LINVOL_MAX_30DB : ℚ) - (WM8960_R0_LINVOL_0DB : ℚ)) * (3 / 4) = 30 := by
  refine ⟨rfl, rfl, ?_⟩
  norm_num [WM8960_R0_LINVOL_MAX_30DB, WM8960_R0_LINVOL_0DB]

/-- C3: both constants the header defines for the IPVU field equal
1 shifted left by 8, i.e. 0x100: the field occupies exactly bit 8. -/
theorem ipvu_is_bit8 :
    WM8960_R0_IPVU = 1 <<< 8 ∧ WM8960_LEFT_RIGHT_IN_VOL_IPVU = 1 <<< 8 ∧
    WM8960_R0_IPVU = 0x100 := by
  decide

/-- C4: both constants the header defines for the LINMUTE field equal
1 shifted left by 7, i.e. 0x080: the field occupies exactly bit 7. -/
theorem linmute_is_bit7 :
    WM8960_R0_LINMUTE = 1 <<< 7 ∧ WM8960_LEFT_RIGHT_IN_VOL_INMUTE = 1 <<< 7 ∧
    WM8960_R0_LINMUTE = 0x080 := by
  decide

/-- C5: both constants the header defines for the LIZC field equal
1 shifted left by 6, i.e. 0x040: the field occupies exactly bit 6. -/
theorem lizc_is_bit6 :
    WM8960_R0_LIZC = 1 <<< 6 ∧ WM8960_LEFT_RIGHT_IN_VOL_IZC_ZC = 1 <<< 6 ∧
    WM8960_R0_LIZC = 0x040 := by
  decide

/-- C6: the LINVOL field mask covers exactly bits 5:0: the mask
constant equals 0x3F (= 2^6 - 1) and the shift constant equals 0. -/
theorem linvol_mask_bits_5_0 :
    WM8960_R0_LINVOL_MASK = 0x3F ∧
    WM8960_R0_LINVOL_MASK = 2 ^ 6 - 1 ∧
    WM8960_R0_LINVOL_SHIFT = 0 := by
  decide

/-- C7: the register address constant equals 0x00, and every field
constant's value equals the value re-derived from the bit positions in
the datasheet-style comments (bit 8, bit 7, bit 6, bits 5:0). -/
theorem r0_constants_match_documented_bits :
    WM8960_R0_ADDR = 0x00 ∧
    WM8960_R0_IPVU = 2 ^ 8 ∧
    WM8960_R0_LINMUTE = 2 ^ 7 ∧
    WM8960_R0_LIZC = 2 ^ 6 ∧
    WM8960_R0_LINVOL_MASK = 2 ^ 6 - 1 ∧
    WM8960_R0_LINVOL_SHIFT = 0 := by
  decide

/-- C8: each documented LINVOL field value (the 0 dB code and the
maximum code), shifted left by the LINVOL shift, lies entirely within
the LINVOL mask: ANDing with the complement of the mask gives 0. -/
theorem linvol_values_fit_mask :
    (WM8960_R0_LINVOL_0DB <<< WM8960_R0_LINVOL_SHIFT) &&&
      complement32 WM8960_R0_LINVOL_MASK = 0 ∧
    (WM8960_R0_LINVOL_MAX_30DB <<< WM8960_R0_LINVOL_SHIFT) &&&
      complement32 WM8960_R0_LINVOL_MASK = 0 := by
  decide

/-- C9: in the documented power-up default 0x017 of the Left Input
Volume register, the LINMUTE bit (bit 7) is 0:
`0x017 AND WM8960_R0_LINMUTE = 0`. -/
theorem default_linmute_bit_clear :
    WM8960_R0_DEFAULT &&& WM8960_R0_LINMUTE = 0 := by
  decide

/-- C10: the two constant naming groups in the header define identical
numeric values field-for-field. -/
theorem naming_groups_agree :
    WM8960_R0_IPVU = WM8960_LEFT_RIGHT_IN_VOL_IPVU ∧
    WM8960_R0_LINMUTE = WM8960_LEFT_RIGHT_IN_VOL_INMUTE ∧
    WM8960_R0_LIZC = WM8960_LEFT_RIGHT_IN_VOL_IZC_ZC ∧
    WM8960_R0_LINVOL_0DB = WM8960_LEFT_RIGHT_IN_VOL_INVOL_0dB ∧
    WM8960_R0_LINVOL_MAX_30DB = WM8960_LEFT_RIGHT_IN_VOL_INVOL_30dB := by
  decide
